import Mathlib

/-!
Formal model of the `framework-web.py` repository, centred on the pooled HTTP
client `WebClient` (src/asyncframework/web/web_client.py) and the response
helper `make_response` (src/asyncframework/web/web_response.py).

The client runs under single-threaded cooperative scheduling (asyncio): code
between two suspension points executes atomically.  We model the client as a
state machine `Sys` whose labelled step relation `Step` has one constructor per
atomic block of the source, and we model the purely sequential pieces
(`close`, `_init_session`, response construction, `make_response`) as plain
functions over the same state.

External collaborators (aiohttp transport, JSON codec, the clock) are
abstracted: a pool is its construction parameters plus a closed flag, the JSON
decode of a body is given as an oracle field of the raw response, and time is
a natural number advanced by `tick` steps.
-/

namespace FrameworkWeb

/-- Construction-time configuration of `WebClient.__init__`:
`request_timeout`, `session_timeout`, `force_close`, `limit`. -/
structure ClientConfig where
  request_timeout : Nat
  session_timeout : Nat
  force_close : Bool
  limit : Nat
deriving DecidableEq

/-- Abstraction of an `aiohttp.ClientSession` as the parameters it was
constructed from in `_init_session`: `ClientTimeout(total=...)` and
`TCPConnector(force_close=..., limit=...)`. -/
structure Pool where
  timeout_total : Nat
  force_close : Bool
  limit : Nat
deriving DecidableEq

/-- Pool constructed by `_init_session` from the client configuration. -/
def mkPool (c : ClientConfig) : Pool :=
  { timeout_total := c.request_timeout, force_close := c.force_close, limit := c.limit }

/-- Minimal JSON value model, standing in for Python dict/list/str/... data
handled by the external `packets.json` codec. -/
inductive Jv
| jnull
| jbool (b : Bool)
| jnum (n : Int)
| jstr (s : String)
| jarr (elems : List Jv)
| jobj (fields : List (String × Jv))

mutual

/-- Model of the external JSON encoder `json.dumps`. -/
def jdump : Jv → String
  | .jnull => "null"
  | .jbool b => if b then "true" else "false"
  | .jnum n => toString n
  | .jstr s => "\x22" ++ s ++ "\x22"
  | .jarr l => "[" ++ jdumpArr l ++ "]"
  | .jobj l => "\x7b" ++ jdumpObj l ++ "\x7d"

/-- Encoder for JSON array elements. -/
def jdumpArr : List Jv → String
  | [] => ""
  | [x] => jdump x
  | x :: xs => jdump x ++ ", " ++ jdumpArr xs

/-- Encoder for JSON object fields. -/
def jdumpObj : List (String × Jv) → String
  | [] => ""
  | [(k, v)] => "\x22" ++ k ++ "\x22: " ++ jdump v
  | (k, v) :: xs => "\x22" ++ k ++ "\x22: " ++ jdump v ++ ", " ++ jdumpObj xs

end

/- ----------------------------------------------------------------
   make_response (src/asyncframework/web/web_response.py)
   ---------------------------------------------------------------- -/

/-- Input of `make_response`: a `PacketBase` (modelled by the string its own
`dumps()` produces), a dict or list (modelled as a JSON value), or a plain
string.  These are exactly the cases of the `isinstance` chain in the source. -/
inductive RSource
| pkt (dump : String)
| jval (v : Jv)
| strv (s : String)

/-- Result of `make_response`: the arguments it passes to `aiohttp.web.Response`
(text, content_type, status, headers). -/
structure PyWebResponse where
  text : String
  content_type : Option String
  status : Nat
  headers : Option (List (String × String))
deriving DecidableEq

/-- Model of `make_response(source, status=200, headers=None)`:
PacketBase uses its own dump with content type application/json, dict and list
are JSON-encoded with content type application/json, a plain string is passed
through with no content type; status and headers are forwarded unchanged. -/
def make_response (source : RSource) (status : Nat := 200)
    (headers : Option (List (String × String)) := none) : PyWebResponse :=
  match source with
  | .pkt d => { text := d, content_type := some "application/json", status := status, headers := headers }
  | .jval v => { text := jdump v, content_type := some "application/json", status := status, headers := headers }
  | .strv s => { text := s, content_type := none, status := status, headers := headers }

/- ----------------------------------------------------------------
   Response normalisation in WebClient._request
   ---------------------------------------------------------------- -/

/-- Insertion pass of Python `dict(m)` over the items of a multidict, with
`seen` the keys already inserted: a key not yet present is inserted with
`m[k]`, the value of its first occurrence (which is `v` itself at the first
occurrence); re-assigning an already-present key with `m[k]` leaves the dict
unchanged, since `m[k]` is again the first-occurrence value. -/
def pyDictAux (seen : List String) : List (String × String) → List (String × String)
  | [] => []
  | (k, v) :: rest =>
      if seen.contains k then pyDictAux seen rest
      else (k, v) :: pyDictAux (k :: seen) rest

/-- Model of Python `dict(m)` applied to the `CIMultiDictProxy` of response
headers: the keys are iterated with multiplicity and each key is assigned
`m[k]`, the value of its FIRST occurrence; the net effect keeps the first
occurrence of every header name and drops the rest. -/
def pyDict (hs : List (String × String)) : List (String × String) := pyDictAux [] hs

/-- Value of one name in the header mapping demanded by the spec: a single
string, or an ordered sequence of strings when the name is repeated. -/
inductive HeaderVal
| single (v : String)
| multi (vs : List String)
deriving DecidableEq

/-- Header names not among `seen`, in order of first occurrence. -/
def headerNamesAux (seen : List String) : List (String × String) → List String
  | [] => []
  | (k, _) :: rest =>
      if seen.contains k then headerNamesAux seen rest
      else k :: headerNamesAux (k :: seen) rest

/-- Header names in order of first occurrence. -/
def headerNames (hs : List (String × String)) : List String := headerNamesAux [] hs

/-- Modelled from the spec: the headers mapping the spec describes, sending
each header name appearing once to its single string value and each repeated
header name to the ordered sequence of all its string values.  Written from
the words of the spec for comparison with the code model `pyDict`. -/
def headersSpec (hs : List (String × String)) : List (String × HeaderVal) :=
  (headerNames hs).map (fun k =>
    match (hs.filter (fun q => q.1 == k)).map (fun q => q.2) with
    | [v] => (k, HeaderVal.single v)
    | vs => (k, HeaderVal.multi vs))

/-- Raw HTTP response as delivered by the transport: status, method, whether
the response declares a JSON content type, the JSON decode of the body as an
oracle (`none` when the body is not decodable), the body text, and the raw
header pairs in wire order. -/
structure RawResp where
  status : Nat
  method : String
  ctJson : Bool
  bodyJson : Option Jv
  body : String
  headers : List (String × String)

/-- Errors that `resp.json()` can raise. -/
inductive RespErr
| contentTypeError
| decodeError
deriving DecidableEq

/-- Model of `resp.json(loads=json.loads)`: raises `ContentTypeError` when the
response does not declare a JSON content type, raises a decode error when the
declared-JSON body does not parse, and returns the decoded value otherwise. -/
def respJson (r : RawResp) : Except RespErr Jv :=
  if r.ctJson then
    match r.bodyJson with
    | some v => Except.ok v
    | none => Except.error RespErr.decodeError
  else
    Except.error RespErr.contentTypeError

/-- The `WebClientResponse` value constructed at the end of `_request`. -/
structure WebClientResponse where
  status : Nat
  method : String
  text : String
  json : Option Jv
  headers : List (String × String)

/-- Model of the response-normalisation tail of `_request`: try `resp.json()`,
swallowing only `ContentTypeError` (leaving the json field `None`), let any
other decode error propagate, and build the `WebClientResponse` from status,
method, body text, decoded json and `dict(resp.headers)`. -/
def buildClientResponse (r : RawResp) : Except RespErr WebClientResponse :=
  match respJson r with
  | Except.ok v =>
      Except.ok { status := r.status, method := r.method, text := r.body,
                  json := some v, headers := pyDict r.headers }
  | Except.error RespErr.contentTypeError =>
      Except.ok { status := r.status, method := r.method, text := r.body,
                  json := none, headers := pyDict r.headers }
  | Except.error e => Except.error e

/- ----------------------------------------------------------------
   Cooperative state machine of the WebClient
   ---------------------------------------------------------------- -/

/-- State of the background idle-watchdog task `_close_after` at the
suspension points of its body: sleeping in `asyncio.sleep`, suspended inside
its own `close(wait=True)` at `await old_client.close()` (remembering the
swapped-out pool and close-task references), finished normally, or cancelled
(the `except asyncio.CancelledError: pass` path). -/
inductive WdS
| sleeping (sleepStart : Nat)
| closingPool (oldPool : Nat) (oldClose : Option Nat)
| doneW
| cancelled
deriving DecidableEq

/-- State of one verb-method call (a `_request` coroutine) at its suspension
points: not yet at its first atomic block, suspended awaiting the pending
open signal, suspended at the dispatched HTTP call, or finished. -/
inductive RTask
| startR
| waitingSignal
| dispatched (pool : Nat)
| doneR
deriving DecidableEq

/-- State of one external `close(wait)` call at its suspension points:
not yet started, suspended at `await old_client.close()` (remembering the
swapped-out references and the wait flag), or finished. -/
inductive CTask
| startC (wait : Bool)
| awaitingClose (wait : Bool) (oldPool : Nat) (oldClose : Option Nat)
| doneC
deriving DecidableEq

/-- Whole-system state: the mutable fields of the `WebClient` instance
(client, wait_open, close_after_task, last_req_time), the pools constructed so
far with their closed flags, and the coroutines in flight.  Collections are
functions from task or pool indices, valid below the corresponding counter.
The `waitOpen` slot models `self._wait_open`: `none` for no future,
`some false` for a pending future, `some true` for a resolved one. -/
structure Sys where
  cfg : ClientConfig
  time : Nat
  client : Option Nat
  waitOpen : Option Bool
  closeSlot : Option Nat
  lastReq : Nat
  nPools : Nat
  pools : Nat → Pool
  poolClosed : Nat → Bool
  nReqs : Nat
  reqs : Nat → RTask
  nWds : Nat
  wds : Nat → WdS
  nCloses : Nat
  closes : Nat → CTask

/-- The `done()` test on a watchdog task: finished or cancelled. -/
def wdDone : WdS → Bool
  | .doneW => true
  | .cancelled => true
  | _ => false

/-- Tail of `close`: `if old_close and not old_close.done(): if not wait:
old_close.cancel()`.  Cancelling a task that is sleeping or awaiting inside
the watchdog try-block makes it exit through the CancelledError handler. -/
def cancelIfNeeded (wds : Nat → WdS) (ocl : Option Nat) (wait : Bool) : Nat → WdS :=
  match ocl with
  | none => wds
  | some w0 => if wdDone (wds w0) then wds else if wait then wds else Function.update wds w0 .cancelled

/-- The else branch of `_init_session`, which runs without any suspension
point: store a fresh pending future in the `_wait_open` slot, construct the
`ClientSession` from the client configuration, start the `_close_after`
watchdog task, and resolve the future.  The slot is left holding the resolved
future; the else branch never sets it back to `None`. -/
def initSessionCreate (s : Sys) : Sys :=
  { s with
    waitOpen := some true,
    pools := Function.update s.pools s.nPools (mkPool s.cfg),
    nPools := s.nPools + 1,
    client := some s.nPools,
    wds := Function.update s.wds s.nWds (.sleeping s.time),
    nWds := s.nWds + 1,
    closeSlot := some s.nWds }

/-- A new verb-method call begins: one more `_request` coroutine exists. -/
def reqSpawnUpd (s : Sys) : Sys :=
  { s with nReqs := s.nReqs + 1, reqs := Function.update s.reqs s.nReqs .startR }

/-- First atomic block of `_request` when `self._client` is already set:
skip `_init_session`, stamp `self._last_req_time = time.time()`, pass the
not-None check, and suspend at the dispatched HTTP call. -/
def reqFastUpd (s : Sys) (i p : Nat) : Sys :=
  { s with
    lastReq := s.time, reqs := Function.update s.reqs i (.dispatched p) }

/-- First atomic block of `_request` entering `_init_session` while the
pending future is unresolved: the caller suspends awaiting that future
instead of constructing a second pool. -/
def reqWaitUpd (s : Sys) (i : Nat) : Sys :=
  { s with reqs := Function.update s.reqs i .waitingSignal }

/-- First atomic block of `_request` entering the creating branch of
`_init_session`: the whole creation runs without suspension, then back in
`_request` the timestamp is stamped and the call suspends at dispatch. -/
def reqCreateUpd (s : Sys) (i : Nat) : Sys :=
  let s1 := initSessionCreate s
  { s1 with
    lastReq := s1.time, reqs := Function.update s1.reqs i (.dispatched s.nPools) }

/-- A caller awaiting the open signal resumes once the future is resolved:
it clears the `_wait_open` slot, stamps the timestamp, and either suspends at
dispatch or fails at the not-None check when the client is gone. -/
def waiterResumeUpd (s : Sys) (i : Nat) : Sys :=
  { s with
    waitOpen := none, lastReq := s.time,
    reqs := Function.update s.reqs i
      (match s.client with
       | some p => .dispatched p
       | none => .doneR) }

/-- The dispatched HTTP call completes, successfully or with a propagated
transport error; either way the `_request` coroutine ends and no client
state except the task itself changes. -/
def reqEndUpd (s : Sys) (i : Nat) : Sys :=
  { s with reqs := Function.update s.reqs i .doneR }

/-- An external `close(wait)` call begins. -/
def closeSpawnUpd (s : Sys) (w : Bool) : Sys :=
  { s with nCloses := s.nCloses + 1, closes := Function.update s.closes s.nCloses (.startC w) }

/-- First atomic block of an external `close` finding an open pool: swap the
client and watchdog references out to locals, reset both slots, and suspend
at `await old_client.close()`. -/
def closeAUpd (s : Sys) (i p : Nat) (w : Bool) : Sys :=
  { s with
    client := none, closeSlot := none,
    closes := Function.update s.closes i (.awaitingClose w p s.closeSlot) }

/-- An external `close` finding no open pool runs to completion without
suspending: swap and reset the slots, skip the pool close, and cancel the
swapped-out watchdog unless it is done or `wait` is true. -/
def closeBUpd (s : Sys) (i : Nat) (w : Bool) : Sys :=
  { s with
    client := none, closeSlot := none,
    wds := cancelIfNeeded s.wds s.closeSlot w,
    closes := Function.update s.closes i .doneC }

/-- Second atomic block of an external `close`: `await old_client.close()`
returns, the pool is now closed, and the swapped-out watchdog is cancelled
unless it is done or `wait` is true. -/
def closeResUpd (s : Sys) (i : Nat) (w : Bool) (p : Nat) (ocl : Option Nat) : Sys :=
  { s with
    poolClosed := Function.update s.poolClosed p true,
    wds := cancelIfNeeded s.wds ocl w,
    closes := Function.update s.closes i .doneC }

/-- The watchdog wakes from `asyncio.sleep` and a request arrived during the
sleep: it logs and loops, sleeping again from the current time. -/
def wdLoopUpd (s : Sys) (w : Nat) : Sys :=
  { s with wds := Function.update s.wds w (.sleeping s.time) }

/-- The watchdog wakes past the idle deadline with an open pool: it enters
`close(wait=True)`, swaps and resets the slots, and suspends at
`await old_client.close()`. -/
def wdFireAUpd (s : Sys) (w p : Nat) : Sys :=
  { s with
    client := none, closeSlot := none,
    wds := Function.update s.wds w (.closingPool p s.closeSlot) }

/-- The watchdog wakes past the idle deadline with no open pool: its
`close(wait=True)` runs to completion without suspending (wait is true, so
the swapped-out close task is never cancelled), and the loop breaks. -/
def wdFireBUpd (s : Sys) (w : Nat) : Sys :=
  { s with client := none, closeSlot := none, wds := Function.update s.wds w .doneW }

/-- The watchdog inside its own `close(wait=True)` resumes from
`await old_client.close()`: the pool is closed; `wait` is true so nothing is
cancelled; the loop breaks and the task finishes. -/
def wdResUpd (s : Sys) (w p : Nat) : Sys :=
  { s with
    poolClosed := Function.update s.poolClosed p true,
    wds := Function.update s.wds w .doneW }

/-- Wall-clock time advances. -/
def tickUpd (s : Sys) : Sys :=
  { s with time := s.time + 1 }

/-- The idle test of `_close_after`:
`time.time() >= self._last_req_time + self._session_timeout`. -/
def wdShouldClose (now lastReq timeout : Nat) : Bool :=
  decide (lastReq + timeout ≤ now)

/-- Labels of atomic steps, identifying the acting coroutine. -/
inductive Lab
| reqSpawn
| req (i : Nat)
| waiter (i : Nat)
| reqEnd (i : Nat)
| closeSpawn (w : Bool)
| closeStep (i : Nat)
| closeRes (i : Nat)
| wdWake (w : Nat)
| wdRes (w : Nat)
| tick
deriving DecidableEq

/-- One atomic step of the cooperative system: each constructor is one
source-level block between suspension points, guarded by the scheduler
conditions under which it can run. -/
inductive Step : Lab → Sys → Sys → Prop
| reqSpawn (s : Sys) : Step .reqSpawn s (reqSpawnUpd s)
| reqFast (s : Sys) (i p : Nat) (hi : i < s.nReqs) (ht : s.reqs i = .startR)
    (hc : s.client = some p) : Step (.req i) s (reqFastUpd s i p)
| reqWait (s : Sys) (i : Nat) (hi : i < s.nReqs) (ht : s.reqs i = .startR)
    (hc : s.client = none) (hw : s.waitOpen = some false) : Step (.req i) s (reqWaitUpd s i)
| reqCreate (s : Sys) (i : Nat) (hi : i < s.nReqs) (ht : s.reqs i = .startR)
    (hc : s.client = none) (hw : s.waitOpen ≠ some false) : Step (.req i) s (reqCreateUpd s i)
| waiterResume (s : Sys) (i : Nat) (hi : i < s.nReqs) (ht : s.reqs i = .waitingSignal)
    (hw : s.waitOpen = some true) : Step (.waiter i) s (waiterResumeUpd s i)
| reqEnded (s : Sys) (i p : Nat) (hi : i < s.nReqs) (ht : s.reqs i = .dispatched p) :
    Step (.reqEnd i) s (reqEndUpd s i)
| closeSpawn (s : Sys) (w : Bool) : Step (.closeSpawn w) s (closeSpawnUpd s w)
| closeOpen (s : Sys) (i p : Nat) (w : Bool) (hi : i < s.nCloses)
    (ht : s.closes i = .startC w) (hc : s.client = some p)
    (hnc : s.poolClosed p = false) : Step (.closeStep i) s (closeAUpd s i p w)
| closeNoPool (s : Sys) (i : Nat) (w : Bool) (hi : i < s.nCloses)
    (ht : s.closes i = .startC w)
    (hc : ∀ p, s.client = some p → s.poolClosed p = true) :
    Step (.closeStep i) s (closeBUpd s i w)
| closeResume (s : Sys) (i p : Nat) (w : Bool) (ocl : Option Nat) (hi : i < s.nCloses)
    (ht : s.closes i = .awaitingClose w p ocl) :
    Step (.closeRes i) s (closeResUpd s i w p ocl)
| wdLoop (s : Sys) (w st : Nat) (hw : w < s.nWds) (hs : s.wds w = .sleeping st)
    (helapsed : st + s.cfg.session_timeout ≤ s.time)
    (hno : wdShouldClose s.time s.lastReq s.cfg.session_timeout = false) :
    Step (.wdWake w) s (wdLoopUpd s w)
| wdFireOpen (s : Sys) (w p st : Nat) (hw : w < s.nWds) (hs : s.wds w = .sleeping st)
    (helapsed : st + s.cfg.session_timeout ≤ s.time)
    (hyes : wdShouldClose s.time s.lastReq s.cfg.session_timeout = true)
    (hc : s.client = some p) (hnc : s.poolClosed p = false) :
    Step (.wdWake w) s (wdFireAUpd s w p)
| wdFireNoPool (s : Sys) (w st : Nat) (hw : w < s.nWds) (hs : s.wds w = .sleeping st)
    (helapsed : st + s.cfg.session_timeout ≤ s.time)
    (hyes : wdShouldClose s.time s.lastReq s.cfg.session_timeout = true)
    (hc : ∀ p, s.client = some p → s.poolClosed p = true) :
    Step (.wdWake w) s (wdFireBUpd s w)
| wdResume (s : Sys) (w p : Nat) (ocl : Option Nat) (hw : w < s.nWds)
    (hs : s.wds w = .closingPool p ocl) : Step (.wdRes w) s (wdResUpd s w p)
| tick (s : Sys) : Step .tick s (tickUpd s)

/-- State of a freshly constructed `WebClient`: no pool, no pending future,
no watchdog, `_last_req_time = 0`, and no coroutines in flight. -/
def WebClientInit (cfg : ClientConfig) : Sys :=
  { cfg := cfg, time := 0, client := none, waitOpen := none, closeSlot := none,
    lastReq := 0, nPools := 0, pools := fun _ => mkPool cfg,
    poolClosed := fun _ => false, nReqs := 0, reqs := fun _ => .startR,
    nWds := 0, wds := fun _ => .doneW, nCloses := 0, closes := fun _ => .doneC }

/-- Reachability by steps whose labels satisfy `P`. -/
inductive ReachL (P : Lab → Prop) (s0 : Sys) : Sys → Prop
| refl : ReachL P s0 s0
| tail (l : Lab) (s s1 : Sys) : ReachL P s0 s → P l → Step l s s1 → ReachL P s0 s1

/-- Reachability by arbitrary steps. -/
def Reach (s0 : Sys) : Sys → Prop := ReachL (fun _ => True) s0

/-- Labels of the scenario of concurrent verb-method calls on a fresh client:
request-task steps and clock ticks, with no explicit close call and no
watchdog activity. -/
def ReqLab : Lab → Prop := fun l =>
  match l with
  | .closeSpawn _ => False
  | .closeStep _ => False
  | .closeRes _ => False
  | .wdWake _ => False
  | .wdRes _ => False
  | _ => True

/-- Reachability in the concurrent-verb-calls scenario. -/
def ReachReq (s0 : Sys) : Sys → Prop := ReachL ReqLab s0

/- ----------------------------------------------------------------
   Sequential run of close(wait)
   ---------------------------------------------------------------- -/

/-- A full run of `close(wait)` by a single caller with no interleaving:
swap the client and watchdog references to locals and reset the slots; if a
pool was present and not closed, close it (the returned flag records whether
this happened); then cancel the swapped-out watchdog unless it is done or
`wait` is true. -/
def closeRun (s : Sys) (wait : Bool) : Sys × Bool :=
  let old_client := s.client
  let old_close := s.closeSlot
  let s1 : Sys := { s with client := none, closeSlot := none }
  let step2 : Sys × Bool :=
    match old_client with
    | some p =>
        if s.poolClosed p then (s1, false)
        else ({ s1 with poolClosed := Function.update s1.poolClosed p true }, true)
    | none => (s1, false)
  let s2 := step2.1
  let s3 : Sys :=
    match old_close with
    | some w0 =>
        if wdDone (s2.wds w0) then s2 else if wait then s2 else
          { s2 with wds := Function.update s2.wds w0 .cancelled }
    | none => s2
  (s3, step2.2)

/-- Resetting the client and watchdog slots of a state where both are already
empty changes nothing. -/
theorem sys_set_none_eq (s : Sys) (h1 : s.client = none) (h2 : s.closeSlot = none) :
    ({ s with client := none, closeSlot := none } : Sys) = s := by
  cases s
  simp only [Sys.mk.injEq, and_true, true_and, eq_self_iff_true]
  exact ⟨h1.symm, h2.symm⟩

/-- After any run of `closeRun` both slots are empty. -/
theorem closeRun_slots_empty (s : Sys) (wait : Bool) :
    (closeRun s wait).1.client = none ∧ (closeRun s wait).1.closeSlot = none := by
  unfold closeRun
  cases hc : s.client <;> cases ho : s.closeSlot <;>
    simp only [] <;> (try split_ifs) <;> simp

/-- A run of `closeRun` on a state with both slots empty is a no-op: the state
is returned unchanged and the pool-close flag is false. -/
theorem closeRun_noop (s : Sys) (wait : Bool) (h1 : s.client = none)
    (h2 : s.closeSlot = none) : closeRun s wait = (s, false) := by
  unfold closeRun
  rw [h1, h2]
  simp only []
  rw [sys_set_none_eq s h1 h2]

/- ----------------------------------------------------------------
   Invariant for concurrent first calls (claim C1)
   ---------------------------------------------------------------- -/

/-- Invariant of the concurrent-verb-calls scenario: at most one pool has
ever been constructed, the pool count matches whether the client slot is
filled, the pending future is never observable unresolved at a suspension
point, no caller is ever parked on the open signal, and any call that has
progressed past its first block implies the pool exists. -/
def InvC1 (s : Sys) : Prop :=
  s.nPools ≤ 1 ∧
  (s.client = none → s.nPools = 0) ∧
  (s.client.isSome → s.nPools = 1) ∧
  s.waitOpen ≠ some false ∧
  (∀ i, i < s.nReqs → s.reqs i ≠ .waitingSignal) ∧
  ((∃ i, i < s.nReqs ∧ s.reqs i ≠ .startR) → s.client.isSome)

/-- Preservation of `InvC1` by every step of the concurrent-verb-calls
scenario. -/
theorem invC1_step (s s1 : Sys) (l : Lab) (hP : ReqLab l) (hstep : Step l s s1)
    (hInv : InvC1 s) : InvC1 s1 := by
  obtain ⟨h1, h2, h3, h4, h5, h6⟩ := hInv
  cases hstep with
  | reqSpawn s =>
      refine ⟨h1, h2, h3, h4, ?_, ?_⟩
      · intro i hi
        simp only [reqSpawnUpd] at hi ⊢
        rcases Nat.lt_succ_iff_lt_or_eq.mp hi with hlt | heq
        · rw [Function.update_noteq (Nat.ne_of_lt hlt)]
          exact h5 i hlt
        · rw [heq, Function.update_same]
          simp
      · rintro ⟨i, hi, hne⟩
        simp only [reqSpawnUpd] at hi hne
        rcases Nat.lt_succ_iff_lt_or_eq.mp hi with hlt | heq
        · rw [Function.update_noteq (Nat.ne_of_lt hlt)] at hne
          exact h6 ⟨i, hlt, hne⟩
        · rw [heq, Function.update_same] at hne
          exact absurd rfl hne
  | reqFast s i p hi ht hc =>
      refine ⟨h1, h2, h3, h4, ?_, ?_⟩
      · intro j hj
        simp only [reqFastUpd] at hj ⊢
        by_cases hij : j = i
        · rw [hij, Function.update_same]; simp
        · rw [Function.update_noteq hij]; exact h5 j hj
      · intro _
        simp only [reqFastUpd, hc, Option.isSome_some]
  | reqWait s i hi ht hc hw =>
      exact absurd hw h4
  | reqCreate s i hi ht hc hw =>
      have hz : s.nPools = 0 := h2 hc
      refine ⟨?_, ?_, ?_, ?_, ?_, ?_⟩
      · simp only [reqCreateUpd, initSessionCreate, hz]
        omega
      · intro hnone
        simp only [reqCreateUpd, initSessionCreate] at hnone
        exact absurd hnone (by simp)
      · intro _
        simp only [reqCreateUpd, initSessionCreate, hz]
      · simp only [reqCreateUpd, initSessionCreate]
        simp
      · intro j hj
        simp only [reqCreateUpd, initSessionCreate] at hj ⊢
        by_cases hij : j = i
        · rw [hij, Function.update_same]; simp
        · rw [Function.update_noteq hij]; exact h5 j hj
      · intro _
        simp only [reqCreateUpd, initSessionCreate, Option.isSome_some]
  | waiterResume s i hi ht hw =>
      exact absurd ht (h5 i hi)
  | reqEnded s i p hi ht =>
      have hcs : s.client.isSome := h6 ⟨i, hi, by rw [ht]; simp⟩
      refine ⟨h1, h2, h3, h4, ?_, ?_⟩
      · intro j hj
        simp only [reqEndUpd] at hj ⊢
        by_cases hij : j = i
        · rw [hij, Function.update_same]; simp
        · rw [Function.update_noteq hij]; exact h5 j hj
      · intro _
        simpa only [reqEndUpd] using hcs
  | closeSpawn s w => simp [ReqLab] at hP
  | closeOpen s i p w hi ht hc hnc => simp [ReqLab] at hP
  | closeNoPool s i w hi ht hc => simp [ReqLab] at hP
  | closeResume s i p w ocl hi ht => simp [ReqLab] at hP
  | wdLoop s w st hw hs helapsed hno => simp [ReqLab] at hP
  | wdFireOpen s w p st hw hs helapsed hyes hc hnc => simp [ReqLab] at hP
  | wdFireNoPool s w st hw hs helapsed hyes hc => simp [ReqLab] at hP
  | wdResume s w p ocl hw hs => simp [ReqLab] at hP
  | tick s => exact ⟨h1, h2, h3, h4, h5, h6⟩

/-- The invariant holds in every state reachable in the concurrent
verb-calls scenario from a fresh client. -/
theorem invC1_reach (cfg : ClientConfig) (s : Sys)
    (h : ReachReq (WebClientInit cfg) s) : InvC1 s := by
  induction h with
  | refl => simp [InvC1, WebClientInit]
  | tail l s s1 hre hP hstep ih => exact invC1_step s s1 l hP hstep ih

/-- Reachability is monotone in the label predicate. -/
theorem ReachL.mono (P Q : Lab → Prop) (s0 s : Sys) (hPQ : ∀ l, P l → Q l)
    (h : ReachL P s0 s) : ReachL Q s0 s := by
  induction h with
  | refl => exact ReachL.refl
  | tail l s s1 hre hP hstep ih => exact ReachL.tail l s s1 ih (hPQ l hP) hstep

/-- C1: in the scenario of concurrent verb-method calls on a freshly
constructed client, at most one pool is ever constructed, the pending open
signal is never observable unresolved (so a second caller can only ever run
after the creation resolved it, never start a second construction), and as
soon as any call has progressed, exactly one pool has been constructed. -/
theorem c1_concurrent_first_calls_single_pool (cfg : ClientConfig) (s : Sys)
    (h : ReachReq (WebClientInit cfg) s) :
    s.nPools ≤ 1 ∧ s.waitOpen ≠ some false ∧
    ((∃ i, i < s.nReqs ∧ s.reqs i ≠ RTask.startR) → s.nPools = 1) := by
  obtain ⟨h1, h2, h3, h4, h5, h6⟩ := invC1_reach cfg s h
  exact ⟨h1, h4, fun hx => h3 (h6 hx)⟩

/-- Default construction parameters of `WebClient.__init__`. -/
def cfg0 : ClientConfig :=
  { request_timeout := 10, session_timeout := 600, force_close := false, limit := 100 }

/-- Two verb calls spawned on a fresh client. -/
def c1state2 : Sys := reqSpawnUpd (reqSpawnUpd (WebClientInit cfg0))

/-- The first call runs its opening block: it creates the pool and the
watchdog and suspends at dispatch. -/
def c1state3 : Sys := reqCreateUpd c1state2 0

/-- The second call runs its opening block: the pool already exists, so it
stamps the timestamp and suspends at dispatch. -/
def c1state4 : Sys := reqFastUpd c1state3 1 0

/-- Both dispatched calls complete. -/
def c1state6 : Sys := reqEndUpd (reqEndUpd c1state4 0) 1

/-- The two-task schedule is reachable in the concurrent-verb-calls
scenario. -/
theorem c1trace_reach : ReachReq (WebClientInit cfg0) c1state6 := by
  have r0 : ReachReq (WebClientInit cfg0) (WebClientInit cfg0) := ReachL.refl
  have r1 : ReachReq (WebClientInit cfg0) (reqSpawnUpd (WebClientInit cfg0)) :=
    ReachL.tail .reqSpawn _ _ r0 trivial (Step.reqSpawn _)
  have r2 : ReachReq (WebClientInit cfg0) c1state2 :=
    ReachL.tail .reqSpawn _ _ r1 trivial (Step.reqSpawn _)
  have r3 : ReachReq (WebClientInit cfg0) c1state3 :=
    ReachL.tail (.req 0) _ _ r2 trivial
      (Step.reqCreate c1state2 0 (by decide) (by decide) (by decide) (by decide))
  have r4 : ReachReq (WebClientInit cfg0) c1state4 :=
    ReachL.tail (.req 1) _ _ r3 trivial
      (Step.reqFast c1state3 1 0 (by decide) (by decide) (by decide))
  have r5 : ReachReq (WebClientInit cfg0) (reqEndUpd c1state4 0) :=
    ReachL.tail (.reqEnd 0) _ _ r4 trivial
      (Step.reqEnded c1state4 0 0 (by decide) (by decide))
  exact ReachL.tail (.reqEnd 1) _ _ r5 trivial
    (Step.reqEnded (reqEndUpd c1state4 0) 1 0 (by decide) (by decide))

/-- Witness for C1: on the concrete two-task schedule, exactly one pool was
constructed. -/
theorem c1_witness : c1state6.nPools = 1 :=
  (c1_concurrent_first_calls_single_pool cfg0 c1state6 c1trace_reach).2.2
    ⟨0, by decide, by decide⟩

/- ----------------------------------------------------------------
   Invariant tying the pool to its watchdog (claim C2)
   ---------------------------------------------------------------- -/

/-- The watchdog at an index other than the one `cancelIfNeeded` may touch is
unchanged. -/
theorem cancelIfNeeded_ne (wds : Nat → WdS) (ocl : Option Nat) (wait : Bool)
    (w1 : Nat) (h : ∀ w0, ocl = some w0 → w1 ≠ w0) :
    cancelIfNeeded wds ocl wait w1 = wds w1 := by
  cases ocl with
  | none => rfl
  | some w0 =>
      have hne : w1 ≠ w0 := h w0 rfl
      unfold cancelIfNeeded
      dsimp only
      split_ifs with hd hw
      · rfl
      · rfl
      · exact Function.update_noteq hne _ _

/-- Invariant of the full system: whenever the client slot is filled, the
watchdog slot is filled too; the watchdog stored in the slot is always a
live sleeping task inside range; and the watchdog reference swapped out by a
suspended close call is never the one currently in the slot. -/
def InvC2 (s : Sys) : Prop :=
  (s.client.isSome → s.closeSlot.isSome) ∧
  (∀ w, s.closeSlot = some w → w < s.nWds ∧ ∃ st, s.wds w = WdS.sleeping st) ∧
  (∀ i wt p w0, i < s.nCloses → s.closes i = CTask.awaitingClose wt p (some w0) →
     w0 < s.nWds ∧ s.closeSlot ≠ some w0)

/-- Preservation of `InvC2` by every step of the system. -/
theorem invC2_step (s s1 : Sys) (l : Lab) (hstep : Step l s s1)
    (hInv : InvC2 s) : InvC2 s1 := by
  obtain ⟨h1, h2, h3⟩ := hInv
  cases hstep with
  | reqSpawn s => exact ⟨h1, h2, h3⟩
  | reqFast s i p hi ht hc => exact ⟨h1, h2, h3⟩
  | reqWait s i hi ht hc hw => exact ⟨h1, h2, h3⟩
  | reqCreate s i hi ht hc hw =>
      refine ⟨?_, ?_, ?_⟩
      · intro _
        simp [reqCreateUpd, initSessionCreate]
      · intro w hw1
        simp only [reqCreateUpd, initSessionCreate, Option.some.injEq] at hw1
        subst hw1
        refine ⟨by simp [reqCreateUpd, initSessionCreate], s.time, ?_⟩
        simp [reqCreateUpd, initSessionCreate, Function.update_same]
      · intro j wt p0 w0 hj hcl
        simp only [reqCreateUpd, initSessionCreate] at hj hcl
        obtain ⟨hb, _⟩ := h3 j wt p0 w0 hj hcl
        refine ⟨by simp only [reqCreateUpd, initSessionCreate]; omega, ?_⟩
        simp only [reqCreateUpd, initSessionCreate, ne_eq, Option.some.injEq]
        omega
  | waiterResume s i hi ht hw => exact ⟨h1, h2, h3⟩
  | reqEnded s i p hi ht => exact ⟨h1, h2, h3⟩
  | closeSpawn s w =>
      refine ⟨h1, h2, ?_⟩
      intro j wt p0 w0 hj hcl
      simp only [closeSpawnUpd] at hj hcl
      rcases Nat.lt_succ_iff_lt_or_eq.mp hj with hlt | heq
      · rw [Function.update_noteq (Nat.ne_of_lt hlt)] at hcl
        exact h3 j wt p0 w0 hlt hcl
      · rw [heq, Function.update_same] at hcl
        cases hcl
  | closeOpen s i p w hi ht hc hnc =>
      refine ⟨?_, ?_, ?_⟩
      · intro hx
        simp [closeAUpd] at hx
      · intro w1 hw1
        simp [closeAUpd] at hw1
      · intro j wt p0 w0 hj hcl
        simp only [closeAUpd] at hj hcl
        refine ⟨?_, by simp [closeAUpd]⟩
        by_cases hij : j = i
        · subst hij
          rw [Function.update_same] at hcl
          injection hcl with hw1 hp1 hs1
          exact (h2 w0 hs1).1
        · rw [Function.update_noteq hij] at hcl
          exact (h3 j wt p0 w0 hj hcl).1
  | closeNoPool s i w hi ht hc =>
      refine ⟨?_, ?_, ?_⟩
      · intro hx
        simp [closeBUpd] at hx
      · intro w1 hw1
        simp [closeBUpd] at hw1
      · intro j wt p0 w0 hj hcl
        simp only [closeBUpd] at hj hcl
        refine ⟨?_, by simp [closeBUpd]⟩
        by_cases hij : j = i
        · subst hij
          rw [Function.update_same] at hcl
          cases hcl
        · rw [Function.update_noteq hij] at hcl
          exact (h3 j wt p0 w0 hj hcl).1
  | closeResume s i p w ocl hi ht =>
      refine ⟨h1, ?_, ?_⟩
      · intro w1 hw1
        obtain ⟨hb, st, hst⟩ := h2 w1 hw1
        refine ⟨hb, st, ?_⟩
        simp only [closeResUpd]
        rw [cancelIfNeeded_ne s.wds ocl w w1 ?_]
        · exact hst
        · intro w0 hocl
          subst hocl
          intro hww
          subst hww
          exact (h3 i w p w1 hi ht).2 hw1
      · intro j wt p0 w0 hj hcl
        simp only [closeResUpd] at hj hcl
        by_cases hij : j = i
        · subst hij
          rw [Function.update_same] at hcl
          cases hcl
        · rw [Function.update_noteq hij] at hcl
          exact h3 j wt p0 w0 hj hcl
  | wdLoop s w st hw hs helapsed hno =>
      refine ⟨h1, ?_, h3⟩
      intro w1 hw1
      obtain ⟨hb, st1, hst1⟩ := h2 w1 hw1
      refine ⟨hb, ?_⟩
      by_cases hww : w1 = w
      · subst hww
        exact ⟨s.time, by simp [wdLoopUpd, Function.update_same]⟩
      · exact ⟨st1, by simp only [wdLoopUpd]; rw [Function.update_noteq hww]; exact hst1⟩
  | wdFireOpen s w p st hw hs helapsed hyes hc hnc =>
      refine ⟨?_, ?_, ?_⟩
      · intro hx
        simp [wdFireAUpd] at hx
      · intro w1 hw1
        simp [wdFireAUpd] at hw1
      · intro j wt p0 w0 hj hcl
        simp only [wdFireAUpd] at hj hcl
        exact ⟨(h3 j wt p0 w0 hj hcl).1, by simp [wdFireAUpd]⟩
  | wdFireNoPool s w st hw hs helapsed hyes hc =>
      refine ⟨?_, ?_, ?_⟩
      · intro hx
        simp [wdFireBUpd] at hx
      · intro w1 hw1
        simp [wdFireBUpd] at hw1
      · intro j wt p0 w0 hj hcl
        simp only [wdFireBUpd] at hj hcl
        exact ⟨(h3 j wt p0 w0 hj hcl).1, by simp [wdFireBUpd]⟩
  | wdResume s w p ocl hw hs =>
      refine ⟨h1, ?_, h3⟩
      intro w1 hw1
      obtain ⟨hb, st1, hst1⟩ := h2 w1 hw1
      have hww : w1 ≠ w := by
        intro hww
        subst hww
        rw [hst1] at hs
        cases hs
      refine ⟨hb, st1, ?_⟩
      simp only [wdResUpd]
      rw [Function.update_noteq hww]
      exact hst1
  | tick s => exact ⟨h1, h2, h3⟩

/-- The invariant `InvC2` holds in every reachable state. -/
theorem invC2_reach (cfg : ClientConfig) (s : Sys)
    (h : Reach (WebClientInit cfg) s) : InvC2 s := by
  induction h with
  | refl => simp [InvC2, WebClientInit]
  | tail l s s1 hre hP hstep ih => exact invC2_step s s1 l hstep ih

/-- The concrete C1 schedule prefix, reachable by unrestricted steps. -/
theorem c1state3_reach : Reach (WebClientInit cfg0) c1state3 := by
  have r0 : Reach (WebClientInit cfg0) (WebClientInit cfg0) := ReachL.refl
  have r1 : Reach (WebClientInit cfg0) (reqSpawnUpd (WebClientInit cfg0)) :=
    ReachL.tail .reqSpawn _ _ r0 trivial (Step.reqSpawn _)
  have r2 : Reach (WebClientInit cfg0) c1state2 :=
    ReachL.tail .reqSpawn _ _ r1 trivial (Step.reqSpawn _)
  exact ReachL.tail (.req 0) _ _ r2 trivial
    (Step.reqCreate c1state2 0 (by decide) (by decide) (by decide) (by decide))

/-- An external `close(wait=True)` call spawned after the pool exists. -/
def c2state3 : Sys := closeSpawnUpd c1state3 true

/-- The close call swaps out the pool and watchdog references and suspends
at the pool shutdown. -/
def c2state4 : Sys := closeAUpd c2state3 0 0 true

/-- The pool shutdown completes; `wait` is true so the swapped-out watchdog
is left untouched, still sleeping. -/
def c2state5 : Sys := closeResUpd c2state4 0 true 0 (some 0)

/-- A third verb call on the now-closed client re-creates the pool and a
second watchdog while the first watchdog is still scheduled. -/
def c2state6 : Sys := reqCreateUpd (reqSpawnUpd c2state5) 2

/-- The abandoned-watchdog state is reachable. -/
theorem c2state5_reach : Reach (WebClientInit cfg0) c2state5 := by
  have r3 : Reach (WebClientInit cfg0) c2state3 :=
    ReachL.tail (.closeSpawn true) _ _ c1state3_reach trivial (Step.closeSpawn _ true)
  have r4 : Reach (WebClientInit cfg0) c2state4 :=
    ReachL.tail (.closeStep 0) _ _ r3 trivial
      (Step.closeOpen c2state3 0 0 true (by decide) (by decide) (by decide) (by decide))
  exact ReachL.tail (.closeRes 0) _ _ r4 trivial
    (Step.closeResume c2state4 0 0 true (some 0) (by decide) (by decide))

/-- The two-watchdogs state is reachable. -/
theorem c2state6_reach : Reach (WebClientInit cfg0) c2state6 := by
  have r6 : Reach (WebClientInit cfg0) (reqSpawnUpd c2state5) :=
    ReachL.tail .reqSpawn _ _ c2state5_reach trivial (Step.reqSpawn _)
  exact ReachL.tail (.req 2) _ _ r6 trivial
    (Step.reqCreate (reqSpawnUpd c2state5) 2 (by decide) (by decide) (by decide) (by decide))

/-- C2, counterexample: the claimed invariant fails on reachable states.
After a pool is created and an external `close(wait=True)` completes, the
pool reference is `None` yet the watchdog task is still scheduled, sleeping,
neither cancelled nor fired (state `c2state5`); and after a further verb call
re-creates the pool, two live watchdogs are scheduled simultaneously while
the pool reference is non-None (state `c2state6`), so neither direction of
the invariant nor the at-most-one-watchdog clause holds. -/
theorem c2_counterexample :
    Reach (WebClientInit cfg0) c2state5 ∧ c2state5.client = none ∧
    c2state5.nWds = 1 ∧ c2state5.wds 0 = WdS.sleeping 0 ∧
    Reach (WebClientInit cfg0) c2state6 ∧ c2state6.client = some 1 ∧
    c2state6.nWds = 2 ∧ c2state6.wds 0 = WdS.sleeping 0 ∧
    c2state6.wds 1 = WdS.sleeping 0 :=
  ⟨c2state5_reach, by decide, by decide, by decide,
   c2state6_reach, by decide, by decide, by decide, by decide⟩

/-- C2, amended: in every reachable state, a non-None pool reference implies
that the watchdog slot holds a live, scheduled (sleeping) watchdog task, so
at least one live watchdog exists whenever a pool does.  The converse and
the at-most-one clauses of the original claim are refuted by
`c2_counterexample`: a close call with `wait=True` abandons its watchdog
without cancelling it, so an orphaned watchdog can stay scheduled with no
pool, and can coexist with the next pool and its fresh watchdog. -/
theorem c2_pool_implies_live_watchdog (cfg : ClientConfig) (s : Sys) (p : Nat)
    (h : Reach (WebClientInit cfg) s) (hc : s.client = some p) :
    ∃ w st, s.closeSlot = some w ∧ w < s.nWds ∧ s.wds w = WdS.sleeping st := by
  obtain ⟨h1, h2, h3⟩ := invC2_reach cfg s h
  have hs : s.closeSlot.isSome := h1 (by rw [hc]; rfl)
  obtain ⟨w, hw⟩ := Option.isSome_iff_exists.mp hs
  obtain ⟨hlt, st, hst⟩ := h2 w hw
  exact ⟨w, st, hw, hlt, hst⟩

/-- Witness for the amended C2 at the concrete state with one pool. -/
theorem c2_pool_implies_live_watchdog_witness :
    ∃ w st, c1state3.closeSlot = some w ∧ w < c1state3.nWds ∧
      c1state3.wds w = WdS.sleeping st :=
  c2_pool_implies_live_watchdog cfg0 c1state3 0 c1state3_reach (by decide)

/-- C3: `close` is idempotent.  A second run of `close` directly after a
first one closes no pool, cancels nothing, and returns the state unchanged;
and running `close` on a client whose pool and watchdog slots are already
empty (never opened, or already closed) is a no-op that leaves the state
unchanged and closes no pool. -/
theorem c3_close_idempotent (s : Sys) (w1 w2 : Bool) :
    closeRun (closeRun s w1).1 w2 = ((closeRun s w1).1, false) ∧
    (s.client = none → s.closeSlot = none → closeRun s w1 = (s, false)) := by
  constructor
  · obtain ⟨h1, h2⟩ := closeRun_slots_empty s w1
    exact closeRun_noop _ w2 h1 h2
  · intro h1 h2
    exact closeRun_noop s w1 h1 h2

/-- Witness for C3 at a concrete state with an open pool and a sleeping
watchdog: the second close is a no-op, and the never-opened client is
unchanged by close. -/
theorem c3_close_idempotent_witness :
    closeRun (closeRun c1state3 false).1 false = ((closeRun c1state3 false).1, false) ∧
    closeRun (WebClientInit cfg0) false = (WebClientInit cfg0, false) := by
  refine ⟨(c3_close_idempotent c1state3 false false).1, ?_⟩
  exact (c3_close_idempotent (WebClientInit cfg0) false false).2 rfl rfl

/-- C4, counterexample: `close(wait=True)` does not await the termination of
a present, unfinished watchdog task.  On the concrete state `c1state3` whose
watchdog slot holds a sleeping watchdog, `close(wait=True)` returns with
that watchdog still sleeping, not terminated: the source merely skips the
cancellation when `wait` is true and never awaits the task. -/
theorem c4_counterexample :
    (closeRun c1state3 true).1.wds 0 = WdS.sleeping 0 ∧
    wdDone ((closeRun c1state3 true).1.wds 0) = false := by
  constructor <;> decide

/-- The net effect of a full `close(wait)` run on the watchdog tasks is
exactly the conditional cancellation of the swapped-out watchdog
reference. -/
theorem closeRun_wds (s : Sys) (wait : Bool) :
    (closeRun s wait).1.wds = cancelIfNeeded s.wds s.closeSlot wait := by
  unfold closeRun cancelIfNeeded
  cases hc : s.client <;> cases ho : s.closeSlot <;> dsimp only <;>
    (try split_ifs) <;> rfl

/-- C4, amended: on an external close finding a present, unfinished watchdog
task, the watchdog is cancelled when `wait` is false; when `wait` is true it
is neither cancelled nor awaited — its state is left untouched and it keeps
running on its own.  The original claim that close(wait=True) awaits the
watchdog, so that the watchdog has terminated when close returns, is refuted
by `c4_counterexample`. -/
theorem c4_close_cancel_behaviour (s : Sys) (w0 : Nat)
    (hslot : s.closeSlot = some w0) (hnd : wdDone (s.wds w0) = false) :
    (closeRun s false).1.wds w0 = WdS.cancelled ∧
    (closeRun s true).1.wds w0 = s.wds w0 := by
  constructor
  · rw [closeRun_wds, hslot]
    unfold cancelIfNeeded
    simp [hnd]
  · rw [closeRun_wds, hslot]
    unfold cancelIfNeeded
    simp [hnd]

/-- Witness for the amended C4 at the concrete one-pool state. -/
theorem c4_close_cancel_behaviour_witness :
    (closeRun c1state3 false).1.wds 0 = WdS.cancelled ∧
    (closeRun c1state3 true).1.wds 0 = c1state3.wds 0 :=
  c4_close_cancel_behaviour c1state3 0 (by decide) (by decide)

/- ----------------------------------------------------------------
   Claims C5 to C10
   ---------------------------------------------------------------- -/

/-- C5, counterexample: after the creating call of ensure-open returns, the
pending-signal slot is NOT empty.  The else branch of `_init_session`
resolves the future with `set_result` but never assigns
`self._wait_open = None`, so the slot still holds the (resolved) signal: on
a freshly constructed client the creating call leaves the slot at a
resolved signal rather than clearing it. -/
theorem c5_counterexample :
    (initSessionCreate (WebClientInit cfg0)).waitOpen = some true ∧
    (initSessionCreate (WebClientInit cfg0)).waitOpen ≠ none := by
  constructor <;> decide

/-- C5, amended: a call to ensure-open that finds no creation attempt in
flight stores a new pending signal, constructs the pool from the configured
timeout, force-close and connection-limit settings, starts the idle
watchdog, and resolves the signal — but it leaves the resolved signal in
the pending-signal slot instead of clearing it; only callers taking the
waiting branch ever reset the slot to empty.  So after the creating call
returns the slot holds a resolved signal, not nothing. -/
theorem c5_init_session_effect (s : Sys) (_hnopending : s.waitOpen ≠ some false) :
    (initSessionCreate s).pools s.nPools = mkPool s.cfg ∧
    (initSessionCreate s).nPools = s.nPools + 1 ∧
    (initSessionCreate s).client = some s.nPools ∧
    (initSessionCreate s).wds s.nWds = WdS.sleeping s.time ∧
    (initSessionCreate s).nWds = s.nWds + 1 ∧
    (initSessionCreate s).closeSlot = some s.nWds ∧
    (initSessionCreate s).waitOpen = some true := by
  refine ⟨?_, rfl, rfl, ?_, rfl, rfl, rfl⟩
  · simp [initSessionCreate]
  · simp [initSessionCreate]

/-- Witness for the amended C5 on a fresh client. -/
theorem c5_init_session_effect_witness :
    (initSessionCreate (WebClientInit cfg0)).client = some 0 ∧
    (initSessionCreate (WebClientInit cfg0)).pools 0 = mkPool cfg0 :=
  ⟨(c5_init_session_effect (WebClientInit cfg0) (by decide)).2.2.1,
   (c5_init_session_effect (WebClientInit cfg0) (by decide : (WebClientInit cfg0).waitOpen ≠ some false)).1⟩

/-- C6: the idle-watchdog iteration.  After sleeping from `sleepStart` and
waking at or after `sleepStart + timeout`, the idle test fires whenever no
request moved `lastRequestTimestamp` past `sleepStart`; if a request arrived
during the sleep (`sleepStart < lastRequestTimestamp`), the test at the
original wake time is false.  At the step level, a waking watchdog whose
test is false keeps the pool untouched and goes back to sleep from the
current time, and a waking watchdog whose test is true tears the pool
reference down in the same atomic block. -/
theorem c6_idle_watchdog_timer :
    (∀ lastReq sleepStart wake timeout : Nat, lastReq ≤ sleepStart →
      sleepStart + timeout ≤ wake → wdShouldClose wake lastReq timeout = true) ∧
    (∀ sleepStart lastReq timeout : Nat, sleepStart < lastReq →
      wdShouldClose (sleepStart + timeout) lastReq timeout = false) ∧
    (∀ (s s1 : Sys) (w : Nat), Step (.wdWake w) s s1 →
      wdShouldClose s.time s.lastReq s.cfg.session_timeout = false →
      s1.client = s.client ∧ s1.wds w = WdS.sleeping s.time) ∧
    (∀ (s s1 : Sys) (w : Nat), Step (.wdWake w) s s1 →
      wdShouldClose s.time s.lastReq s.cfg.session_timeout = true →
      s1.client = none) := by
  refine ⟨?_, ?_, ?_, ?_⟩
  · intro lastReq sleepStart wake timeout h1 h2
    simp only [wdShouldClose, decide_eq_true_eq]
    omega
  · intro sleepStart lastReq timeout h1
    simp only [wdShouldClose, decide_eq_false_iff_not]
    omega
  · intro s s1 w hstep hfalse
    cases hstep with
    | wdLoop s w st hw hs helapsed hno =>
        exact ⟨rfl, by simp [wdLoopUpd]⟩
    | wdFireOpen s w p st hw hs helapsed hyes hc hnc =>
        rw [hyes] at hfalse
        cases hfalse
    | wdFireNoPool s w st hw hs helapsed hyes hc =>
        rw [hyes] at hfalse
        cases hfalse
  · intro s s1 w hstep htrue
    cases hstep with
    | wdLoop s w st hw hs helapsed hno =>
        rw [hno] at htrue
        cases htrue
    | wdFireOpen s w p st hw hs helapsed hyes hc hnc => rfl
    | wdFireNoPool s w st hw hs helapsed hyes hc => rfl

/-- Configuration with a short idle timeout for the watchdog witnesses. -/
def cfgWd : ClientConfig :=
  { request_timeout := 10, session_timeout := 2, force_close := false, limit := 100 }

/-- A state whose watchdog is due to wake while a request arrived during the
sleep: the idle test is false. -/
def sWdLoop : Sys :=
  { WebClientInit cfgWd with
    nPools := 1, client := some 0, closeSlot := some 0, nWds := 1,
    wds := Function.update (fun _ => WdS.doneW) 0 (WdS.sleeping 0),
    time := 2, lastReq := 1 }

/-- The same state with no request since before the sleep: the idle test is
true. -/
def sWdFire : Sys := { sWdLoop with lastReq := 0 }

/-- Witness for C6: concrete idle tests, a concrete loop step that keeps the
pool and re-sleeps, and a concrete fire step that tears the pool down. -/
theorem c6_idle_watchdog_timer_witness :
    wdShouldClose 10 3 7 = true ∧ wdShouldClose (5 + 7) 6 7 = false ∧
    ((wdLoopUpd sWdLoop 0).client = sWdLoop.client ∧
      (wdLoopUpd sWdLoop 0).wds 0 = WdS.sleeping sWdLoop.time) ∧
    (wdFireAUpd sWdFire 0 0).client = none :=
  ⟨c6_idle_watchdog_timer.1 3 3 10 7 (by decide) (by decide),
   c6_idle_watchdog_timer.2.1 5 6 7 (by decide),
   c6_idle_watchdog_timer.2.2.1 sWdLoop _ 0
     (Step.wdLoop sWdLoop 0 0 (by decide) (by decide) (by decide) (by decide)) (by decide),
   c6_idle_watchdog_timer.2.2.2 sWdFire _ 0
     (Step.wdFireOpen sWdFire 0 0 0 (by decide) (by decide) (by decide) (by decide)
       (by decide) (by decide)) (by decide)⟩

/-- C7: a completed request whose response does not declare a JSON content
type yields a `WebClientResponse` with the structured json field absent and
the text field populated from the body, and the decode failure
(`ContentTypeError`) is swallowed, never surfaced to the caller. -/
theorem c7_content_type_fallback (r : RawResp) (h : r.ctJson = false) :
    buildClientResponse r = Except.ok
      { status := r.status, method := r.method, text := r.body, json := none,
        headers := pyDict r.headers } := by
  unfold buildClientResponse respJson
  rw [h]
  simp

/-- A concrete non-JSON response. -/
def rPlain : RawResp :=
  { status := 200, method := "GET", ctJson := false, bodyJson := none,
    body := "OK 10", headers := [("Server", "stub")] }

/-- Witness for C7 at a concrete non-JSON response. -/
theorem c7_content_type_fallback_witness :
    buildClientResponse rPlain = Except.ok
      { status := 200, method := "GET", text := "OK 10", json := none,
        headers := [("Server", "stub")] } :=
  c7_content_type_fallback rPlain rfl

/-- Lookup in the insertion pass agrees with lookup in the raw list for any
name not already inserted. -/
theorem pyDictAux_find (l : List (String × String)) (seen : List String)
    (n : String) (hn : seen.contains n = false) :
    (pyDictAux seen l).find? (fun p => p.1 == n) = l.find? (fun p => p.1 == n) := by
  induction l generalizing seen with
  | nil => rfl
  | cons kv rest ih =>
      obtain ⟨k, v⟩ := kv
      by_cases hk : seen.contains k
      · have hkn : (k == n) = false := by
          rcases Bool.eq_false_iff.mp (by exact hn) with _
          by_contra hx
          have hkeq : k = n := by
            have : (k == n) = true := by
              cases hb : (k == n)
              · exact absurd hb hx
              · rfl
            exact beq_iff_eq.mp this
          rw [hkeq] at hk
          rw [hn] at hk
          cases hk
        simp only [pyDictAux, hk, if_true, List.find?_cons, hkn]
        exact ih seen hn
      · have hk0 : seen.contains k = false := by
          cases hb : seen.contains k
          · rfl
          · exact absurd hb hk
        simp only [pyDictAux, hk0, Bool.false_eq_true, if_false]
        cases hkn : (k == n) with
        | true =>
            simp [List.find?_cons, hkn]
        | false =>
            simp only [List.find?_cons, hkn]
            apply ih
            simp only [List.contains_cons, hkn, hn, Bool.or_false]
            cases hb : (n == k)
            · rfl
            · have hnk : n = k := beq_iff_eq.mp hb
              rw [hnk, beq_self_eq_true] at hkn
              cases hkn

/-- Lookup in the dict built from the header multidict returns the first
occurrence of the name in the raw headers. -/
theorem pyDict_find (hs : List (String × String)) (n : String) :
    (pyDict hs).find? (fun p => p.1 == n) = hs.find? (fun p => p.1 == n) :=
  pyDictAux_find hs [] n rfl

/-- The raw response with a repeated header name used against C8. -/
def rDup : RawResp :=
  { status := 200, method := "GET", ctJson := false, bodyJson := none,
    body := "ok", headers := [("X", "a"), ("X", "b")] }

/-- C8, counterexample: the headers field of the returned response never
holds a sequence of values.  `dict(resp.headers)` maps a repeated header
name to the single string value of its first occurrence, so for the raw
headers X:a, X:b the code returns just X mapped to a, while the claimed
mapping sends X to the ordered sequence a, b; the two disagree. -/
theorem c8_counterexample :
    buildClientResponse rDup = Except.ok
      { status := 200, method := "GET", text := "ok", json := none,
        headers := [("X", "a")] } ∧
    headersSpec rDup.headers = [("X", HeaderVal.multi ["a", "b"])] ∧
    (pyDict rDup.headers).map (fun p => (p.1, HeaderVal.single p.2)) ≠
      headersSpec rDup.headers := by
  refine ⟨rfl, by decide, by decide⟩

/-- C8, amended: the headers field of the returned response maps each header
name to the single string value of its FIRST occurrence in the raw response
headers; repeated occurrences beyond the first are dropped, never collected
into a sequence (refuted for the original sequence reading by
`c8_counterexample`). -/
theorem c8_headers_first_value (r : RawResp) (resp : WebClientResponse)
    (h : buildClientResponse r = Except.ok resp) (n : String) :
    resp.headers.find? (fun p => p.1 == n) = r.headers.find? (fun p => p.1 == n) := by
  have hh : resp.headers = pyDict r.headers := by
    unfold buildClientResponse at h
    cases hr : respJson r with
    | ok v =>
        rw [hr] at h
        injection h with h1
        rw [← h1]
    | error e =>
        cases e with
        | contentTypeError =>
            rw [hr] at h
            injection h with h1
            rw [← h1]
        | decodeError =>
            rw [hr] at h
            cases h
  rw [hh]
  exact pyDict_find r.headers n

/-- Witness for the amended C8 at a concrete response with a repeated
header. -/
theorem c8_headers_first_value_witness :
    ([("X", "a")] : List (String × String)).find? (fun p => p.1 == "X") =
      rDup.headers.find? (fun p => p.1 == "X") :=
  c8_headers_first_value rDup
    { status := 200, method := "GET", text := "ok", json := none,
      headers := [("X", "a")] } rfl "X"

/-- C9: any step that moves a verb call into its dispatched suspension point
stamps `lastRequestTimestamp` with the current time within the same atomic
block — after ensure-open (the client reference is the dispatched pool) and
before the dispatch suspension — and the step that completes a dispatched
call, whether the HTTP call succeeded or failed, leaves the timestamp
unchanged, so a failed attempt still counts as activity. -/
theorem c9_timestamp_update :
    (∀ (s s1 : Sys) (i p : Nat), Step (.req i) s s1 →
      s1.reqs i = RTask.dispatched p → s1.lastReq = s.time ∧ s1.client = some p) ∧
    (∀ (s s1 : Sys) (i p : Nat), Step (.waiter i) s s1 →
      s1.reqs i = RTask.dispatched p → s1.lastReq = s.time) ∧
    (∀ (s s1 : Sys) (i : Nat), Step (.reqEnd i) s s1 → s1.lastReq = s.lastReq) := by
  refine ⟨?_, ?_, ?_⟩
  · intro s s1 i p hstep hd
    cases hstep with
    | reqFast s i p0 hi ht hc =>
        simp only [reqFastUpd, Function.update_same] at hd
        injection hd with hp
        subst hp
        exact ⟨rfl, hc⟩
    | reqWait s i hi ht hc hw =>
        simp only [reqWaitUpd, Function.update_same] at hd
        cases hd
    | reqCreate s i hi ht hc hw =>
        simp only [reqCreateUpd, initSessionCreate, Function.update_same] at hd
        injection hd with hp
        subst hp
        exact ⟨rfl, rfl⟩
  · intro s s1 i p hstep hd
    cases hstep with
    | waiterResume s i hi ht hw =>
        cases hc : s.client with
        | some p0 => rfl
        | none =>
            simp only [waiterResumeUpd, hc, Function.update_same] at hd
            cases hd
  · intro s s1 i hstep
    cases hstep with
    | reqEnded s i p hi ht => rfl

/-- Witness for C9: the concrete fast-path step stamps the timestamp with
the step time, and the concrete completion step preserves it. -/
theorem c9_timestamp_update_witness :
    (c1state4.lastReq = c1state3.time ∧ c1state4.client = some 0) ∧
    (reqEndUpd c1state4 1).lastReq = c1state4.lastReq :=
  ⟨c9_timestamp_update.1 c1state3 c1state4 1 0
     (Step.reqFast c1state3 1 0 (by decide) (by decide) (by decide)) (by decide),
   c9_timestamp_update.2.2 c1state4 _ 1
     (Step.reqEnded c1state4 1 0 (by decide) (by decide))⟩

/-- C10: `make_response` sends a dict or list to its JSON encoding with
content type application/json, a packet to its own dump with content type
application/json, and a plain string to itself with no content type; the
status and headers arguments are forwarded unchanged and the status
defaults to 200 with no headers. -/
theorem c10_make_response_cases :
    (∀ (v : Jv) (st : Nat) (hd : Option (List (String × String))),
      make_response (RSource.jval v) st hd =
        { text := jdump v, content_type := some "application/json",
          status := st, headers := hd }) ∧
    (∀ (d : String) (st : Nat) (hd : Option (List (String × String))),
      make_response (RSource.pkt d) st hd =
        { text := d, content_type := some "application/json",
          status := st, headers := hd }) ∧
    (∀ (sv : String) (st : Nat) (hd : Option (List (String × String))),
      make_response (RSource.strv sv) st hd =
        { text := sv, content_type := none, status := st, headers := hd }) ∧
    (∀ src : RSource, make_response src = make_response src 200 none) :=
  ⟨fun _ _ _ => rfl, fun _ _ _ => rfl, fun _ _ _ => rfl, fun _ => rfl⟩

end FrameworkWeb
